import Mathlib

/-!
Verification development for the kostentram backend (Express + Prisma).
Shallow embedding of the authentication and credential-lifecycle logic:

* src/utils/jwt.ts              -- token codec (signJwt / verifyJwt, JWT_SECRET check)
* src/middleware/auth.ts        -- request gate (Bearer-token middleware)
* src/routes/auth.ts            -- register / login / forgot-password / reset-password
* prisma migrations             -- User and PasswordReset tables with unique indexes

External libraries (zod's email grammar, bcrypt's salted hash/compare) are
abstracted into an `Env` of function parameters; the relational store is a
pair of lists with the unique constraints of the migrations enforced by the
store operations.  Times are seconds as `Nat`.
-/

namespace Kostentram

/-- Claims embedded in a session token: src/types/index.d.ts
`export type JwtPayload = { userId: number; email: string }`. -/
structure JwtPayload where
  userId : Nat
  email : String
deriving Repr, DecidableEq

/-- Model of the opaque JWT string space: a token either decodes to a payload,
an expiry claim and a signature, or it is malformed. -/
inductive JwtToken where
  | signed (payload : JwtPayload) (exp : Nat) (sig : String)
  | malformed (raw : String)
deriving Repr, DecidableEq

/-- Model of the HMAC signature jsonwebtoken computes over the payload with the
process-wide secret (the exact hash is irrelevant to the claims; what matters is
that verification recomputes it from the same inputs and compares). -/
def macSign (secret : String) (p : JwtPayload) (exp : Nat) : String :=
  secret ++ "|" ++ toString p.userId ++ "|" ++ p.email ++ "|" ++ toString exp

/-- src/utils/jwt.ts `signJwt`: sign the payload with `expiresIn: '7d'`,
so the expiry claim is issuance time + 604800 seconds. -/
def signJwt (secret : String) (now : Nat) (p : JwtPayload) : JwtToken :=
  .signed p (now + 604800) (macSign secret p (now + 604800))

/-- src/utils/jwt.ts `verifyJwt`: jsonwebtoken's verify decodes the token,
checks the signature against the secret, then rejects if the current time has
reached the expiry claim; any failure throws (modelled as `Except.error`). -/
def verifyJwt (secret : String) (now : Nat) : JwtToken → Except String JwtPayload
  | .malformed _ => .error "jwt malformed"
  | .signed p exp sig =>
    if sig ≠ macSign secret p exp then .error "invalid signature"
    else if exp ≤ now then .error "jwt expired"
    else .ok p

/-- True when verification failed (the thrown-error branch of jwt.verify). -/
def isErr (r : Except String JwtPayload) : Bool :=
  match r with
  | .error _ => true
  | .ok _ => false

/-- Environment configuration read at process start (src/server.ts, src/utils/jwt.ts):
`JWT_SECRET`, `FRONTEND_URL`, `PORT`.  `none` models an unset variable. -/
structure ServerConfig where
  jwtSecret : Option String
  frontendUrl : Option String
  port : Option Nat
deriving Repr, DecidableEq

/-- State of a server that reached `app.listen`: it holds the signing secret
and a port.  A value of this type exists only for a startup that succeeded. -/
structure RunningServer where
  secret : String
  port : Nat
deriving Repr, DecidableEq

/-- src/utils/jwt.ts module initialisation:
`const SECRET = process.env.JWT_SECRET!; if (!SECRET) throw new Error('JWT_SECRET missing')`.
In JavaScript `!SECRET` is true both when the variable is unset (undefined) and
when it is the empty string. -/
def initSecret : Option String → Except String String
  | none => .error "JWT_SECRET missing"
  | some s => if s.isEmpty then .error "JWT_SECRET missing" else .ok s

/-- src/server.ts startup: importing the route modules evaluates the jwt module
(initSecret) before `app.listen` is ever reached; a throw there aborts the
process, so no request is ever served. -/
def startServer (cfg : ServerConfig) : Except String RunningServer :=
  match initSecret cfg.jwtSecret with
  | .error e => .error e
  | .ok secret => .ok { secret := secret, port := cfg.port.getD 4000 }

/-- User row (prisma migration `User` table): id (serial), email (unique via
`User_email_key`), password (bcrypt hash), optional name. -/
structure User where
  id : Nat
  email : String
  password : String
  name : Option String
deriving Repr, DecidableEq

/-- PasswordReset row (prisma migration `PasswordReset` table): id (serial),
token (unique via `PasswordReset_token_key`), userId (FK to User),
optional expiresAt, used flag (default false). -/
structure PasswordReset where
  id : Nat
  token : String
  userId : Nat
  expiresAt : Option Nat
  used : Bool
deriving Repr, DecidableEq

/-- The relational store reachable through the Prisma client: the two tables
the auth flows touch, plus the serial-id counters. -/
structure Store where
  users : List User
  resets : List PasswordReset
  nextUserId : Nat
  nextResetId : Nat
deriving Repr, DecidableEq

/-- prisma.user.findUnique where email (unique index `User_email_key`). -/
def findUserByEmail (s : Store) (email : String) : Option User :=
  s.users.find? (fun u => u.email == email)

/-- prisma.user.create: the insert fails on the store's uniqueness constraint
`User_email_key` when a row with the same email already exists; no pre-insert
existence check is performed by the route. -/
def createUser (s : Store) (email hashed : String) (name : Option String) :
    Except Unit (User × Store) :=
  if s.users.any (fun u => u.email == email) then
    .error ()
  else
    let u : User := { id := s.nextUserId, email := email, password := hashed, name := name }
    .ok (u, { s with users := s.users ++ [u], nextUserId := s.nextUserId + 1 })

/-- prisma.user.update where id: set the password hash of the user with that id. -/
def updateUserPassword (s : Store) (uid : Nat) (hashed : String) : Store :=
  { s with users := s.users.map (fun u => if u.id == uid then { u with password := hashed } else u) }

/-- prisma.passwordReset.findUnique where token (unique index `PasswordReset_token_key`). -/
def findResetByToken (s : Store) (token : String) : Option PasswordReset :=
  s.resets.find? (fun r => r.token == token)

/-- prisma.passwordReset.create with `data: \x7b token, userId \x7d`: the row gets the
schema defaults `used = false` and, as the route comment notes, `expiresAt` null. -/
def createReset (s : Store) (token : String) (uid : Nat) : Store :=
  let rec0 : PasswordReset :=
    { id := s.nextResetId, token := token, userId := uid, expiresAt := none, used := false }
  { s with resets := s.resets ++ [rec0], nextResetId := s.nextResetId + 1 }

/-- prisma.passwordReset.update where id: set `used = true`. -/
def markResetUsed (s : Store) (rid : Nat) : Store :=
  { s with resets := s.resets.map (fun r => if r.id == rid then { r with used := true } else r) }

/-- Abstraction of the external libraries the routes call: zod's email grammar
(`z.email()`), bcrypt's salted hash (`bcrypt.hash(p, 10)`, one call per request,
modelled as a function of the password) and bcrypt's verifier
(`bcrypt.compare(password, storedHash)`). -/
structure Env where
  emailValid : String → Bool
  bhash : String → String
  bcompare : String → String → Bool

/-- Body of src/utils/zod.ts `zodToFieldErrors`: message 'Validation failed'
plus formErrors and per-field fieldErrors. -/
structure ValidationBody where
  message : String
  formErrors : List String
  fieldErrors : List (String × List String)
deriving Repr, DecidableEq

/-- JSON response bodies the auth routes and middleware produce. -/
inductive Body where
  | err (msg : String)
  | msg (m : String)
  | msgTokenHint (m tok hint : String)
  | validation (v : ValidationBody)
  | idEmail (id : Nat) (email : String)
  | token (t : JwtToken)
deriving Repr, DecidableEq

/-- HTTP response: status code plus JSON body. -/
structure Response where
  status : Nat
  body : Body
deriving Repr, DecidableEq

/-- Helper of zodToFieldErrors: push a message onto fieldErrors[key]
(`(fieldErrors[key] ??= []).push(issue.message)`). -/
def addFieldError (fe : List (String × List String)) (k m : String) :
    List (String × List String) :=
  match fe with
  | [] => [(k, [m])]
  | (k', ms) :: rest =>
    if k' == k then (k', ms ++ [m]) :: rest else (k', ms) :: addFieldError rest k m

/-- src/utils/zod.ts `zodToFieldErrors`: every zod issue of the auth schemas has
a nonempty path, so formErrors stays empty and each issue lands in
fieldErrors under its field name. -/
def zodToFieldErrors (issues : List (String × String)) : ValidationBody :=
  { message := "Validation failed"
    formErrors := []
    fieldErrors := issues.foldl (fun acc i => addFieldError acc i.1 i.2) [] }

/-- zod's message for a failed z.email() check. -/
def emailIssueMsg : String := "Invalid email address"

/-- zod's message for a string shorter than the .min bound. -/
def minLenMsg (n : Nat) : String :=
  "String must contain at least " ++ toString n ++ " character(s)"

/-- RegisterSchema (auth.ts 14-18): email must satisfy the email grammar,
password length at least 6, name unchecked. -/
def registerIssues (env : Env) (email password : String) : List (String × String) :=
  (if env.emailValid email then [] else [("email", emailIssueMsg)]) ++
  (if password.length < 6 then [("password", minLenMsg 6)] else [])

/-- LoginSchema (auth.ts 20-23): same email and password constraints. -/
def loginIssues (env : Env) (email password : String) : List (String × String) :=
  (if env.emailValid email then [] else [("email", emailIssueMsg)]) ++
  (if password.length < 6 then [("password", minLenMsg 6)] else [])

/-- ForgotSchema (auth.ts 25-27): email grammar only. -/
def forgotIssues (env : Env) (email : String) : List (String × String) :=
  if env.emailValid email then [] else [("email", emailIssueMsg)]

/-- ResetSchema (auth.ts 29-32): token length at least 10,
newPassword length at least 6. -/
def resetIssues (token newPassword : String) : List (String × String) :=
  (if token.length < 10 then [("token", minLenMsg 10)] else []) ++
  (if newPassword.length < 6 then [("newPassword", minLenMsg 6)] else [])

/-- auth.ts 36-37 `buildResetLink`: FE base URL (already trailing-slash trimmed)
plus the reset path and token when FRONTEND_URL is configured, else null. -/
def buildResetLink (fe : Option String) (token : String) : Option String :=
  fe.map (fun f => f ++ "/reset-password?token=" ++ token)

/-- auth.ts 57-73, POST /auth/register: validate, hash, attempt the insert; the
catch of the uniqueness-constraint failure answers 409. -/
def register (env : Env) (s : Store) (email password : String) (name : Option String) :
    Response × Store :=
  let issues := registerIssues env email password
  if issues ≠ [] then
    (⟨400, .validation (zodToFieldErrors issues)⟩, s)
  else
    let hashed := env.bhash password
    match createUser s email hashed name with
    | .ok (u, s') => (⟨201, .idEmail u.id u.email⟩, s')
    | .error _ => (⟨409, .err "Email exists"⟩, s)

/-- auth.ts 98-111, POST /auth/login: validate, look the user up by email and
compare the password against the stored hash; a missing user and a failed
compare take the same 401 branch; success signs a 7-day token. -/
def login (env : Env) (secret : String) (now : Nat) (s : Store)
    (email password : String) : Response :=
  let issues := loginIssues env email password
  if issues ≠ [] then
    ⟨400, .validation (zodToFieldErrors issues)⟩
  else
    match findUserByEmail s email with
    | none => ⟨401, .err "Invalid credentials"⟩
    | some u =>
      if env.bcompare password u.password then
        ⟨200, .token (signJwt secret now ⟨u.id, u.email⟩)⟩
      else
        ⟨401, .err "Invalid credentials"⟩

/-- auth.ts 128-156, POST /auth/forgot-password: always 200; for a known email
a fresh random token (passed in as `rawToken`, modelling crypto.randomBytes)
is persisted, and the body echoes the token only when no FRONTEND_URL is set. -/
def forgotPassword (env : Env) (fe : Option String) (s : Store)
    (email rawToken : String) : Response × Store :=
  let issues := forgotIssues env email
  if issues ≠ [] then
    (⟨400, .validation (zodToFieldErrors issues)⟩, s)
  else
    match findUserByEmail s email with
    | none => (⟨200, .msg "If the email exists, a reset link will be sent"⟩, s)
    | some user =>
      let s1 := createReset s rawToken user.id
      match buildResetLink fe rawToken with
      | some _ => (⟨200, .msg "Reset link generated"⟩, s1)
      | none =>
        (⟨200, .msgTokenHint "Reset link generated (testing mode)" rawToken
            "POST to /auth/reset-password with \x7b token, newPassword \x7d"⟩, s1)

/-- auth.ts 173-197, POST /auth/reset-password, run to completion: validate,
look the reset row up by token, reject when absent or used, otherwise update
the owner's password hash and then mark the token used (two separate awaits in
the source, modelled here as both applied). -/
def resetPassword (env : Env) (s : Store) (token newPassword : String) :
    Response × Store :=
  let issues := resetIssues token newPassword
  if issues ≠ [] then
    (⟨400, .validation (zodToFieldErrors issues)⟩, s)
  else
    match findResetByToken s token with
    | none => (⟨400, .err "Invalid or already used token"⟩, s)
    | some rec0 =>
      if rec0.used then
        (⟨400, .err "Invalid or already used token"⟩, s)
      else
        let hashed := env.bhash newPassword
        let s1 := updateUserPassword s rec0.userId hashed
        let s2 := markResetUsed s1 rec0.id
        (⟨200, .msg "Password updated successfully (testing mode)"⟩, s2)

/-- Store state after the first mutation of the reset handler (prisma.user.update,
auth.ts 187-190) but before the second (prisma.passwordReset.update, auth.ts
191-194): the two awaits are not wrapped in a transaction, so this intermediate
state is observable after a crash or by an interleaved request. `none` when the
handler rejected before mutating anything. -/
def resetPasswordMid (env : Env) (s : Store) (token newPassword : String) :
    Option Store :=
  if resetIssues token newPassword ≠ [] then none
  else
    match findResetByToken s token with
    | none => none
    | some rec0 =>
      if rec0.used then none
      else some (updateUserPassword s rec0.userId (env.bhash newPassword))

/-- Outcome of the request gate: reject with a response, or attach the verified
claims to the request (`req.user = ...`) and call `next()`. -/
inductive AuthOutcome where
  | reject (status : Nat) (body : Body)
  | proceed (user : JwtPayload)
deriving Repr, DecidableEq

/-- Model of JavaScript `hdr.startsWith('Bearer ')`, computed on the character
sequence of the header. -/
def hasBearer (h : String) : Bool :=
  "Bearer ".data.isPrefixOf h.data

/-- Model of JavaScript `hdr.slice(7)`: the header with its first seven
characters removed. -/
def afterBearer (h : String) : String :=
  String.mk (h.data.drop 7)

/-- src/middleware/auth.ts `auth`: reject 401 'No token' when the Authorization
header is absent or lacks the 'Bearer ' prefix; otherwise verify the rest of
the header, rejecting 401 'Invalid token' when verification throws. -/
def auth (verify : String → Except String JwtPayload) (hdr : Option String) :
    AuthOutcome :=
  match hdr with
  | none => .reject 401 (.err "No token")
  | some h =>
    if hasBearer h then
      match verify (afterBearer h) with
      | .ok p => .proceed p
      | .error _ => .reject 401 (.err "Invalid token")
    else .reject 401 (.err "No token")

/-- A protected route: the gate runs first and the handler is invoked only on
`proceed` (iklan.ts `r.post('/', auth, handler)` and friends). -/
def runProtected (verify : String → Except String JwtPayload) (hdr : Option String)
    (handler : JwtPayload → Response) : Response :=
  match auth verify hdr with
  | .reject status body => ⟨status, body⟩
  | .proceed p => handler p

/-- Store with every reset row's expiresAt rewritten by f; the reset handler's
response will turn out not to depend on this field at all. -/
def setAllExpiry (s : Store) (f : PasswordReset → Option Nat) : Store :=
  { s with resets := s.resets.map (fun r => { r with expiresAt := f r }) }

/-- Concrete instantiation of the abstracted external libraries, used to
evaluate the theorems on closed inputs. -/
def envM : Env :=
  { emailValid := fun e => e == "a@x.com" || e == "b@x.com"
    bhash := fun p => "h:" ++ p
    bcompare := fun p h => ("h:" ++ p) == h }

/-- Concrete registered user. -/
def userM : User :=
  { id := 1, email := "a@x.com", password := "h:old-pass1", name := none }

/-- Concrete unused reset token owned by userM. -/
def resetM : PasswordReset :=
  { id := 1, token := "resettoken123", userId := 1, expiresAt := none, used := false }

/-- Concrete store holding userM and resetM. -/
def storeM : Store :=
  { users := [userM], resets := [resetM], nextUserId := 2, nextResetId := 2 }

/-- Concrete store with no rows at all. -/
def emptyStore : Store :=
  { users := [], resets := [], nextUserId := 1, nextResetId := 1 }

/-- Concrete store whose reset token carries an expiry instant already in the
past (expiresAt = 5) while remaining unused. -/
def storeExpiredM : Store :=
  { users := [userM]
    resets := [{ id := 1, token := "resettoken123", userId := 1,
                 expiresAt := some 5, used := false }]
    nextUserId := 2, nextResetId := 2 }

/-- The intermediate store of the interrupted reset run on storeM: password
already rehashed, token still unconsumed. -/
def storeMidM : Store :=
  { users := [{ id := 1, email := "a@x.com", password := "h:newpass1", name := none }]
    resets := [resetM], nextUserId := 2, nextResetId := 2 }

/-- find? commutes with mapping a function that does not change the truth of
the search predicate; used to track prisma findUnique results across the
row-rewriting updates. -/
theorem find?_map_pres {α : Type} (p : α → Bool) (f : α → α)
    (hp : ∀ x, p (f x) = p x) :
    ∀ l : List α, (l.map f).find? p = (l.find? p).map f
  | [] => rfl
  | a :: t => by
    by_cases h : p a = true
    · simp [List.find?, hp, h]
    · have h' : p a = false := by simpa using h
      simp [List.find?, hp, h', find?_map_pres p f hp t]

/-- C8: if the JWT_SECRET environment value is absent or empty at process
start, startup fails with the fatal 'JWT_SECRET missing' error, so the server
never reaches app.listen and no request is ever handled. -/
theorem startup_fails_without_secret (cfg : ServerConfig)
    (h : cfg.jwtSecret = none ∨ cfg.jwtSecret = some "") :
    startServer cfg = .error "JWT_SECRET missing" := by
  rcases h with h | h <;> simp [startServer, initSecret, h, String.isEmpty]

/-- Evaluation of startup_fails_without_secret on a concrete configuration with
the secret unset. -/
theorem startup_fails_without_secret_witness :
    startServer ⟨none, some "https://fe.example", some 4000⟩ =
      .error "JWT_SECRET missing" :=
  startup_fails_without_secret ⟨none, some "https://fe.example", some 4000⟩ (Or.inl rfl)

/-- C9: the request gate rejects with 401 and the generic no-token body when
the Authorization header is absent or lacks the 'Bearer ' prefix, rejects with
401 and the generic invalid-token body when verification of the extracted token
fails, attaches the verified claims and continues otherwise, and in every
rejection case a protected handler is never invoked — the gate's response is
returned no matter what the handler would do. -/
theorem auth_gate_spec (verify : String → Except String JwtPayload)
    (hdr : Option String) :
    (hdr = none → auth verify hdr = .reject 401 (.err "No token")) ∧
    (∀ h, hdr = some h → hasBearer h = false →
      auth verify hdr = .reject 401 (.err "No token")) ∧
    (∀ h e, hdr = some h → hasBearer h = true →
      verify (afterBearer h) = .error e →
      auth verify hdr = .reject 401 (.err "Invalid token")) ∧
    (∀ h p, hdr = some h → hasBearer h = true →
      verify (afterBearer h) = .ok p →
      auth verify hdr = .proceed p) ∧
    (∀ st b, auth verify hdr = .reject st b →
      ∀ handler : JwtPayload → Response,
        runProtected verify hdr handler = ⟨st, b⟩) := by
  refine ⟨?_, ?_, ?_, ?_, ?_⟩
  · intro h; simp [auth, h]
  · intro h hh hb; simp [auth, hh, hb]
  · intro h e hh hb hv; simp [auth, hh, hb, hv]
  · intro h p hh hb hv; simp [auth, hh, hb, hv]
  · intro st b hreject handler
    simp [runProtected, hreject]

/-- Evaluation of auth_gate_spec: a header with the Bearer prefix whose token
fails verification is rejected with the generic invalid-token 401. -/
theorem auth_gate_spec_witness :
    auth (fun _ => .error "bad signature") (some "Bearer xyz") =
      .reject 401 (.err "Invalid token") :=
  (auth_gate_spec (fun _ => .error "bad signature") (some "Bearer xyz")).2.2.1
    "Bearer xyz" "bad signature" rfl (by decide) rfl

/-- C6: verifying a token issued over given claims returns those claims
unchanged at any time before the 7-day expiry elapses, and verification fails
on a signature that does not match the secret, on a malformed token, and on an
elapsed expiry claim. -/
theorem jwt_roundtrip_and_rejection (secret : String) (claims : JwtPayload)
    (t0 t : Nat) (hfresh : t < t0 + 604800) :
    verifyJwt secret t (signJwt secret t0 claims) = .ok claims ∧
    (∀ p e sig, sig ≠ macSign secret p e →
      isErr (verifyJwt secret t (.signed p e sig)) = true) ∧
    (∀ raw, isErr (verifyJwt secret t (.malformed raw)) = true) ∧
    (∀ p e sig, e ≤ t →
      isErr (verifyJwt secret t (.signed p e sig)) = true) := by
  refine ⟨?_, ?_, ?_, ?_⟩
  · simp [verifyJwt, signJwt, Nat.not_le.mpr hfresh]
  · intro p e sig hs; simp [verifyJwt, hs, isErr]
  · intro raw; simp [verifyJwt, isErr]
  · intro p e sig he
    by_cases hs : sig = macSign secret p e
    · simp [verifyJwt, hs, he, isErr]
    · simp [verifyJwt, hs, isErr]

/-- Evaluation of jwt_roundtrip_and_rejection at a concrete secret, concrete
claims and a verification instant one second after issuance. -/
theorem jwt_roundtrip_and_rejection_witness :
    verifyJwt "topsecret" 1 (signJwt "topsecret" 0 ⟨1, "a@x.com"⟩) =
      .ok ⟨1, "a@x.com"⟩ :=
  (jwt_roundtrip_and_rejection "topsecret" ⟨1, "a@x.com"⟩ 0 1 (by decide)).1

/-- C4: for a login request that passes schema validation, the case with no
User row for the email and the case with a User row whose stored hash does not
verify the password produce the very same response term — identical status code
and byte-identical body — namely the generic 401 invalid-credentials error. -/
theorem login_failure_indistinguishable (env : Env) (secret : String)
    (now : Nat) (s1 s2 : Store) (email password : String)
    (hv : loginIssues env email password = [])
    (h1 : findUserByEmail s1 email = none)
    (u : User) (h2 : findUserByEmail s2 email = some u)
    (hcmp : env.bcompare password u.password = false) :
    login env secret now s1 email password =
      login env secret now s2 email password ∧
    login env secret now s1 email password =
      ⟨401, .err "Invalid credentials"⟩ := by
  constructor <;> simp [login, hv, h1, h2, hcmp]

/-- Evaluation of login_failure_indistinguishable: empty store versus a store
whose user has a different password hash, same request. -/
theorem login_failure_indistinguishable_witness :
    login envM "topsecret" 0 emptyStore "a@x.com" "wrongpw7" =
      login envM "topsecret" 0 storeM "a@x.com" "wrongpw7" ∧
    login envM "topsecret" 0 emptyStore "a@x.com" "wrongpw7" =
      ⟨401, .err "Invalid credentials"⟩ :=
  login_failure_indistinguishable envM "topsecret" 0 emptyStore storeM
    "a@x.com" "wrongpw7" (by decide) (by decide) userM (by decide) (by decide)

/-- C10: a login request whose password is shorter than six characters is
answered by schema validation with the 400 structured field-error response —
never the generic 401 — and the response does not depend on the store, so no
credential lookup can influence it. -/
theorem login_short_password_validation (env : Env) (secret : String)
    (now : Nat) (s : Store) (email password : String)
    (hlen : password.length < 6) :
    login env secret now s email password =
      ⟨400, .validation (zodToFieldErrors (loginIssues env email password))⟩ ∧
    (login env secret now s email password).status = 400 ∧
    (∀ s' : Store, login env secret now s' email password =
      login env secret now s email password) := by
  have hne : loginIssues env email password ≠ [] := by
    by_cases hm : env.emailValid email <;> simp [loginIssues, hm, hlen]
  refine ⟨by simp [login, hne], by simp [login, hne], fun s' => by simp [login, hne]⟩

/-- Evaluation of login_short_password_validation on a three-character
password against the concrete store. -/
theorem login_short_password_validation_witness :
    login envM "topsecret" 0 storeM "a@x.com" "abc" =
      ⟨400, .validation (zodToFieldErrors (loginIssues envM "a@x.com" "abc"))⟩ ∧
    (login envM "topsecret" 0 storeM "a@x.com" "abc").status = 400 ∧
    (∀ s' : Store, login envM "topsecret" 0 s' "a@x.com" "abc" =
      login envM "topsecret" 0 storeM "a@x.com" "abc") :=
  login_short_password_validation envM "topsecret" 0 storeM "a@x.com" "abc"
    (by decide)

/-- C5: registering an email for which a User row already exists answers 409
with the generic conflict body — produced from the catch of the store's
uniqueness-constraint violation, the only existence check in the route — and
returns the store unchanged, so no second row is created. -/
theorem register_duplicate_email_conflict (env : Env) (s : Store)
    (email password : String) (name : Option String) (u : User)
    (hu : u ∈ s.users) (he : u.email = email)
    (hmail : env.emailValid email = true) (hlen : ¬ password.length < 6) :
    register env s email password name = (⟨409, .err "Email exists"⟩, s) := by
  have hany : s.users.any (fun v => v.email == email) = true :=
    List.any_eq_true.mpr ⟨u, hu, by simp [he]⟩
  simp [register, registerIssues, hmail, hlen, createUser, hany]

/-- Evaluation of register_duplicate_email_conflict: registering a@x.com a
second time against the concrete store. -/
theorem register_duplicate_email_conflict_witness :
    register envM storeM "a@x.com" "secret1" none =
      (⟨409, .err "Email exists"⟩, storeM) :=
  register_duplicate_email_conflict envM storeM "a@x.com" "secret1" none userM
    (by decide) (by decide) (by decide) (by decide)

/-- C2 as stated is false on the code: with a front-end URL configured the
registered-email and unregistered-email branches of forgot-password both answer
200 without a token, but with different message strings, so the bodies are not
the same and the response distinguishes the two cases. -/
theorem forgot_response_bodies_differ :
    (forgotPassword envM (some "https://fe.example") storeM "a@x.com"
        "freshtok42").1.status = 200 ∧
    (forgotPassword envM (some "https://fe.example") storeM "b@x.com"
        "freshtok42").1.status = 200 ∧
    (forgotPassword envM (some "https://fe.example") storeM "a@x.com"
        "freshtok42").1 ≠
      (forgotPassword envM (some "https://fe.example") storeM "b@x.com"
        "freshtok42").1 := by
  decide

/-- C2 amended: when a front-end base URL is configured, forgot-password
answers status 200 with a message-only body that contains no token whether or
not the email is registered; the message text, however, differs between the two
cases, so the bodies are equal in shape but not byte-identical. -/
theorem forgot_same_shape_no_token (env : Env) (fe : String) (s : Store)
    (email rawToken : String) (hmail : env.emailValid email = true) :
    (findUserByEmail s email = none →
      (forgotPassword env (some fe) s email rawToken).1 =
        ⟨200, .msg "If the email exists, a reset link will be sent"⟩) ∧
    (∀ u, findUserByEmail s email = some u →
      (forgotPassword env (some fe) s email rawToken).1 =
        ⟨200, .msg "Reset link generated"⟩) := by
  constructor
  · intro h; simp [forgotPassword, forgotIssues, hmail, h]
  · intro u h; simp [forgotPassword, forgotIssues, hmail, h, buildResetLink]

/-- Evaluation of forgot_same_shape_no_token on the concrete store for a
registered and an unregistered email. -/
theorem forgot_same_shape_no_token_witness :
    (forgotPassword envM (some "https://fe.example") storeM "b@x.com"
        "freshtok42").1 =
      ⟨200, .msg "If the email exists, a reset link will be sent"⟩ ∧
    (forgotPassword envM (some "https://fe.example") storeM "a@x.com"
        "freshtok42").1 =
      ⟨200, .msg "Reset link generated"⟩ :=
  ⟨(forgot_same_shape_no_token envM "https://fe.example" storeM "b@x.com"
      "freshtok42" (by decide)).1 (by decide),
   (forgot_same_shape_no_token envM "https://fe.example" storeM "a@x.com"
      "freshtok42" (by decide)).2 userM (by decide)⟩

/-- C7: the reset handler never consults expiresAt — its response is invariant
under arbitrary rewriting of every reset row's expiresAt field — and in
particular a token whose expiry instant already passed but whose used flag is
still false drives a successful 200 reset. -/
theorem reset_ignores_expiry (env : Env) (s : Store) (token newPassword : String)
    (f : PasswordReset → Option Nat) :
    (resetPassword env (setAllExpiry s f) token newPassword).1 =
      (resetPassword env s token newPassword).1 ∧
    (∀ rec now e, findResetByToken s token = some rec → rec.used = false →
      rec.expiresAt = some e → e < now → resetIssues token newPassword = [] →
      (resetPassword env s token newPassword).1.status = 200) := by
  constructor
  · have hfind : findResetByToken (setAllExpiry s f) token =
        (findResetByToken s token).map (fun r => { r with expiresAt := f r }) := by
      simpa [findResetByToken, setAllExpiry] using
        find?_map_pres (fun r : PasswordReset => r.token == token)
          (fun r => { r with expiresAt := f r }) (fun r => rfl) s.resets
    by_cases hi : resetIssues token newPassword = []
    · cases hf : findResetByToken s token with
      | none => simp [resetPassword, hi, hfind, hf]
      | some rec0 =>
        by_cases hu : rec0.used = true
        · simp [resetPassword, hi, hfind, hf, hu]
        · simp [resetPassword, hi, hfind, hf, hu]
    · simp [resetPassword, hi]
  · intro rec _ _ hfind hused _ _ hv
    simp [resetPassword, hv, hfind, hused]

/-- Evaluation of reset_ignores_expiry on the concrete store whose reset token
expired at instant 5, evaluated at instant 10. -/
theorem reset_ignores_expiry_witness :
    (resetPassword envM storeExpiredM "resettoken123" "newpass1").1.status = 200 :=
  (reset_ignores_expiry envM storeExpiredM "resettoken123" "newpass1"
      (fun _ => none)).2
    ⟨1, "resettoken123", 1, some 5, false⟩ 10 5 (by decide) rfl rfl (by decide)
    (by decide)

/-- The reset handler either leaves the reset table unchanged (any rejection)
or rewrites it by marking the rows of one id used (success). -/
theorem resetPassword_resets_cases (env : Env) (s : Store) (t np : String) :
    (resetPassword env s t np).2.resets = s.resets ∨
    ∃ rid, (resetPassword env s t np).2.resets =
      s.resets.map (fun r => if r.id == rid then { r with used := true } else r) := by
  by_cases hi : resetIssues t np = []
  · cases hf : findResetByToken s t with
    | none => left; simp [resetPassword, hi, hf]
    | some rec0 =>
      by_cases hu : rec0.used = true
      · left; simp [resetPassword, hi, hf, hu]
      · right
        refine ⟨rec0.id, ?_⟩
        simp [resetPassword, hi, hf, hu, markResetUsed, updateUserPassword]
  · left; simp [resetPassword, hi]

/-- C3: a reset token drives a password change at most once: a successful
reset with p1 answers 200 and marks the row used; the same token submitted
again fails with the generic 400 invalid-or-used error and leaves the store
untouched; the owning user's stored hash is and remains the hash of p1; and no
run of the handler ever turns a used flag from true back to false. -/
theorem reset_token_single_use (env : Env) (s : Store) (token p1 p2 : String)
    (rec : PasswordReset)
    (hfind : findResetByToken s token = some rec) (hused : rec.used = false)
    (hfk : ∃ v ∈ s.users, v.id = rec.userId)
    (hv1 : resetIssues token p1 = []) (hv2 : resetIssues token p2 = []) :
    (resetPassword env s token p1).1.status = 200 ∧
    resetPassword env (resetPassword env s token p1).2 token p2 =
      (⟨400, .err "Invalid or already used token"⟩,
        (resetPassword env s token p1).2) ∧
    (∀ u ∈ (resetPassword env s token p1).2.users, u.id = rec.userId →
      u.password = env.bhash p1) ∧
    (∃ u ∈ (resetPassword env s token p1).2.users, u.id = rec.userId ∧
      u.password = env.bhash p1) ∧
    (∀ (s' : Store) (t np : String), ∀ r ∈ s'.resets, r.used = true →
      ∃ r' ∈ (resetPassword env s' t np).2.resets,
        r'.id = r.id ∧ r'.used = true) := by
  have hrun : resetPassword env s token p1 =
      (⟨200, .msg "Password updated successfully (testing mode)"⟩,
        markResetUsed (updateUserPassword s rec.userId (env.bhash p1)) rec.id) := by
    simp [resetPassword, hv1, hfind, hused]
  have husers : (resetPassword env s token p1).2.users =
      s.users.map (fun v => if v.id == rec.userId then
        { v with password := env.bhash p1 } else v) := by
    simp [hrun, markResetUsed, updateUserPassword]
  refine ⟨by simp [hrun], ?_, ?_, ?_, ?_⟩
  · have hfind2 : findResetByToken (resetPassword env s token p1).2 token =
        some { rec with used := true } := by
      have hpres := find?_map_pres (fun r : PasswordReset => r.token == token)
        (fun r => if r.id == rec.id then { r with used := true } else r)
        (fun r => by by_cases h : (r.id == rec.id) = true <;> simp [h]) s.resets
      have hres : (resetPassword env s token p1).2.resets =
          s.resets.map (fun r =>
            if r.id == rec.id then { r with used := true } else r) := by
        simp [hrun, markResetUsed, updateUserPassword]
      rw [findResetByToken, hres, hpres]
      rw [findResetByToken] at hfind
      simp [hfind]
    set s1 := (resetPassword env s token p1).2 with hs1
    simp [resetPassword, hv2, hfind2]
  · intro u hu hid
    rw [husers] at hu
    obtain ⟨v, hv, hvu⟩ := List.mem_map.mp hu
    by_cases h : (v.id == rec.userId) = true
    · rw [if_pos h] at hvu
      subst hvu
      rfl
    · rw [if_neg h] at hvu
      subst hvu
      exact absurd hid (by simpa using h)
  · obtain ⟨v, hv, hid⟩ := hfk
    refine ⟨{ v with password := env.bhash p1 }, ?_, hid, rfl⟩
    rw [husers]
    refine List.mem_map.mpr ⟨v, hv, ?_⟩
    rw [if_pos (by simpa using hid)]
  · intro s' t np r hr hru
    rcases resetPassword_resets_cases env s' t np with hc | ⟨rid, hc⟩
    · exact ⟨r, by rw [hc]; exact hr, rfl, hru⟩
    · refine ⟨if r.id == rid then { r with used := true } else r, ?_, ?_, ?_⟩
      · rw [hc]; exact List.mem_map_of_mem _ hr
      · by_cases h : (r.id == rid) = true <;> simp [h]
      · by_cases h : (r.id == rid) = true <;> simp [h, hru]

/-- Evaluation of reset_token_single_use: a full reset with newpass1 on the
concrete store followed by a second attempt with the same token. -/
theorem reset_token_single_use_witness :
    (resetPassword envM storeM "resettoken123" "newpass1").1.status = 200 ∧
    resetPassword envM (resetPassword envM storeM "resettoken123" "newpass1").2
        "resettoken123" "newpass2" =
      (⟨400, .err "Invalid or already used token"⟩,
        (resetPassword envM storeM "resettoken123" "newpass1").2) :=
  have h := reset_token_single_use envM storeM "resettoken123" "newpass1"
    "newpass2" resetM (by decide) (by decide) ⟨userM, by decide, by decide⟩
    (by decide) (by decide)
  ⟨h.1, h.2.1⟩

/-- C1 fails on the code: auth.ts runs the user-password update and the
token-used update as two separate awaits with no surrounding transaction, so
the intermediate state after the first mutation has the password already
changed while the token is still unconsumed, and from that state a second
reset with the same token succeeds and changes the password again — exactly
the token reuse the claim rules out. -/
theorem reset_not_atomic :
    resetPasswordMid envM storeM "resettoken123" "newpass1" = some storeMidM ∧
    (∀ u ∈ storeMidM.users, u.id = userM.id →
      u.password = envM.bhash "newpass1") ∧
    (∃ r ∈ storeMidM.resets, r.token = "resettoken123" ∧ r.used = false) ∧
    (resetPassword envM storeMidM "resettoken123" "newpass2").1.status = 200 ∧
    (∃ u ∈ (resetPassword envM storeMidM "resettoken123" "newpass2").2.users,
      u.id = userM.id ∧ u.password = envM.bhash "newpass2") := by
  decide

end Kostentram
